import Mathlib

/-!
Verification of the SP1 local Groth16 verification driver
(`src/script/src/bin/main.rs`) against its natural-language specification.

The file shallowly embeds the driver's `main` function. External services
(the SP1 prover client, the filesystem, and the gnark BN254 pairing
verifier) are modelled as an explicit environment of oracles; `main`
becomes a pure function from that environment and the parsed arguments to
a terminal outcome together with a trace of the external calls it made.
-/

namespace SP1Driver

/-- The parsed command-line arguments (`struct Args` in `main.rs`):
two mode flags and the numeric parameter `n : u32`. -/
structure Args where
  execute : Bool
  prove : Bool
  n : Nat
deriving Repr, DecidableEq

/-- Model of clap argument parsing for `Args`: the field `n` carries
`#[clap(long, default_value = "20")]`, so an absent `--n` yields 20. -/
def parseArgs (execute prove : Bool) (nOpt : Option Nat) : Args :=
  { execute := execute, prove := prove, n := nOpt.getD 20 }

/-- Modelled from the spec: `PublicValuesStruct` is declared in
`fibonacci_lib`, which is not under `src/`; the spec fixes its layout as
the record `{n: u32, a: u64, b: u64}`. -/
structure PublicValuesStruct where
  n : Nat
  a : Nat
  b : Nat
deriving Repr, DecidableEq

/-- Big-endian byte string of width `w` for the natural number `v`
(the low `8*w` bits of `v`). -/
def natToBE : Nat → Nat → List Nat
  | 0, _ => []
  | w + 1, v => natToBE w (v / 256) ++ [v % 256]

/-- Reads a big-endian byte string back into a natural number. -/
def fromBE (bs : List Nat) : Nat :=
  bs.foldl (fun acc d => acc * 256 + d) 0

/-- Modelled from the spec: the canonical ABI encoding of
`PublicValuesStruct` (the codec lives in `fibonacci_lib`, not under
`src/`). A tuple of three statically-sized unsigned integers is encoded
as three 32-byte big-endian words, each value left-padded with zeros. -/
def abiEncodePublicValues (v : PublicValuesStruct) : List Nat :=
  natToBE 32 v.n ++ natToBE 32 v.a ++ natToBE 32 v.b

/-- Modelled from the spec: `PublicValuesStruct::abi_decode(bytes, true)`
(validated decoding) for the fixed tuple ABI `{n: u32, a: u64, b: u64}`.
Fails unless the payload is exactly three 32-byte words whose values fit
the declared widths. -/
def abiDecodePublicValues (bs : List Nat) : Option PublicValuesStruct :=
  if bs.length = 96 then
    let n := fromBE (bs.take 32)
    let a := fromBE ((bs.drop 32).take 32)
    let b := fromBE (bs.drop 64)
    if n < 2 ^ 32 ∧ a < 2 ^ 64 ∧ b < 2 ^ 64 then
      some { n := n, a := a, b := b }
    else none
  else none

/-- Two-term Fibonacci recurrence, `F 0 = 0`, `F 1 = 1`. -/
def fib : Nat → Nat
  | 0 => 0
  | 1 => 1
  | n + 2 => fib n + fib (n + 1)

/-- Modelled from the spec: `fibonacci_lib::fibonacci` is not under
`src/`; the spec describes it as the 0-indexed two-term recurrence with
`n = 20 ↦ (a, b) = (6765, 10946)`, i.e. `(F n, F (n+1))`, with the two
outputs carried as `u64` values. -/
def fibonacci (n : Nat) : Nat × Nat :=
  (fib n % 2 ^ 64, fib (n + 1) % 2 ^ 64)

/-- Value of one hexadecimal digit character, if it is one. -/
def hexVal (c : Char) : Option Nat :=
  if 48 ≤ c.toNat ∧ c.toNat ≤ 57 then some (c.toNat - 48)
  else if 97 ≤ c.toNat ∧ c.toNat ≤ 102 then some (c.toNat - 87)
  else if 65 ≤ c.toNat ∧ c.toNat ≤ 70 then some (c.toNat - 55)
  else none

/-- Model of `hex::decode` on a character list: consumes two hex digits
per output byte; fails on an odd-length input or a non-hex character. -/
def hexDecodeChars : List Char → Option (List Nat)
  | [] => some []
  | [_] => none
  | c1 :: c2 :: rest =>
    match hexVal c1, hexVal c2, hexDecodeChars rest with
    | some h, some l, some tail => some ((h * 16 + l) :: tail)
    | _, _, _ => none

/-- Model of `hex::decode` on a Rust `String`. -/
def hexDecodeStr (s : String) : Option (List Nat) :=
  hexDecodeChars s.data

/-- Model of `num_bigint::BigUint::from_str`: a non-empty string of
decimal digits parses to its value, anything else fails. -/
def decParse (s : String) : Option Nat :=
  if s.data ≠ [] ∧ s.data.all (fun c => 48 ≤ c.toNat ∧ c.toNat ≤ 57) then
    some (s.data.foldl (fun acc c => acc * 10 + (c.toNat - 48)) 0)
  else none

/-- `BigUint::from_str` applied through a `Vec` index: `none` models the
out-of-bounds indexing panic, a failed parse models the `unwrap` panic. -/
def decParseAt (o : Option String) : Option Nat :=
  o.bind decParse

/-- The BN254 scalar field modulus; `Fr::from(b : BigUint)` reduces `b`
modulo this value. -/
def rBN254 : Nat :=
  21888242871839275222246405745257275088548364400416034343698204186575808495617

/-- The proving-system tag passed to `gnark_bn254_verifier::verify`. -/
inductive ProvingSystem where
  | groth16
  | plonk
deriving Repr, DecidableEq

/-- The Groth16 variant payload of an SP1 proof: a hex-encoded proof body
and the proof's own list of decimal public-input strings. -/
structure Groth16Proof where
  encoded_proof : String
  public_inputs : List String
deriving Repr, DecidableEq

/-- The tagged union of SP1 proof variants (`SP1Proof`). -/
inductive SP1Proof where
  | core
  | compressed
  | plonk
  | groth16 (g : Groth16Proof)
deriving Repr, DecidableEq

/-- Where the modelled program panics (each site is one `unwrap`,
`expect`, `assert` or `panic!` occurrence in `main.rs`). -/
inductive PanicSite where
  | executeRun   -- `client.execute(...).run().unwrap()`
  | abiDecode    -- `PublicValuesStruct::abi_decode(...).unwrap()`
  | assertA      -- `assert_eq!(a, expected_a)`
  | assertB      -- `assert_eq!(b, expected_b)`
  | proveRun     -- `.expect("failed to generate proof")`
  | fsRead       -- `std::fs::read(...).unwrap()`
  | hexDecode    -- `hex::decode(...).unwrap()`
  | pubInput     -- `public_inputs[i]` / `BigUint::from_str(...).unwrap()`
  | assertRes    -- `assert!(res)`
  | notGroth16   -- `panic!("wtf?")`
deriving Repr, DecidableEq

/-- Terminal outcome of one invocation of the driver. -/
inductive Outcome where
  | configError
  | panicked (site : PanicSite)
  | doneExecute (n a b cycles : Nat)
  | doneProve
deriving Repr, DecidableEq

/-- Process exit code of each outcome: `std::process::exit(1)` for the
configuration error, the Rust panic runtime's 101 for a panic, 0 on
success. -/
def exitCode : Outcome → Nat
  | Outcome.configError => 1
  | Outcome.panicked _ => 101
  | Outcome.doneExecute _ _ _ _ => 0
  | Outcome.doneProve => 0

/-- External calls the driver makes, recorded in order. -/
inductive Event where
  | clientNew
  | execCall (n : Nat)
  | crossCheck
  | setupCall
  | proveCall (n : Nat)
  | readKey
  | pairingCall
deriving Repr, DecidableEq

/-- The external services `main` consumes, as oracles: the SP1 client's
execute / setup / prove entry points, the verification-key file read, and
the gnark BN254 pairing verifier. `none` models the external call
returning an error (which the driver unwraps). -/
structure Env where
  executeRun : Nat → Option (List Nat × Nat)
  proveRun : Nat → Option SP1Proof
  readKeyFile : Option (List Nat)
  pairingVerify : List Nat → List Nat → List Nat → ProvingSystem → Bool

/-- The execute-mode branch of `main` (`main.rs` lines 59–77): run the
guest, ABI-decode the public output, cross-check the decoded pair against
`fibonacci_lib::fibonacci` on the decoded `n`, report cycles. -/
def runExecuteBranch (env : Env) (args : Args) : Outcome × List Event :=
  match env.executeRun args.n with
  | none => (Outcome.panicked PanicSite.executeRun, [Event.clientNew, Event.execCall args.n])
  | some (output, cycles) =>
    match abiDecodePublicValues output with
    | none => (Outcome.panicked PanicSite.abiDecode, [Event.clientNew, Event.execCall args.n])
    | some v =>
      let evs := [Event.clientNew, Event.execCall args.n, Event.crossCheck]
      (if v.a ≠ (fibonacci v.n).1 then Outcome.panicked PanicSite.assertA
       else if v.b ≠ (fibonacci v.n).2 then Outcome.panicked PanicSite.assertB
       else Outcome.doneExecute v.n v.a v.b cycles, evs)

/-- The prove-mode branch of `main` (`main.rs` lines 78–118): setup,
prove, read the verification-key file, then for the Groth16 variant
hex-decode the proof body, parse the proof's own two public-input strings
into `Fr` elements, and run the pairing check; `assert!(res)` on its
boolean result, then print the success message. -/
def runProveBranch (env : Env) (args : Args) : Outcome × List Event :=
  let base := [Event.clientNew, Event.setupCall, Event.proveCall args.n]
  match env.proveRun args.n with
  | none => (Outcome.panicked PanicSite.proveRun, base)
  | some proof =>
    match env.readKeyFile with
    | none => (Outcome.panicked PanicSite.fsRead, base ++ [Event.readKey])
    | some vk =>
      match proof with
      | SP1Proof.groth16 g =>
        match hexDecodeStr g.encoded_proof with
        | none => (Outcome.panicked PanicSite.hexDecode, base ++ [Event.readKey])
        | some raw =>
          match decParseAt (g.public_inputs.get? 0) with
          | none => (Outcome.panicked PanicSite.pubInput, base ++ [Event.readKey])
          | some vkeyHash =>
            match decParseAt (g.public_inputs.get? 1) with
            | none => (Outcome.panicked PanicSite.pubInput, base ++ [Event.readKey])
            | some committedDigest =>
              let pubInputs := [vkeyHash % rBN254, committedDigest % rBN254]
              let evs := base ++ [Event.readKey, Event.pairingCall]
              (if env.pairingVerify raw vk pubInputs ProvingSystem.groth16 then
                Outcome.doneProve
               else Outcome.panicked PanicSite.assertRes, evs)
      | _ => (Outcome.panicked PanicSite.notGroth16, base ++ [Event.readKey])

/-- The driver's `main`: the mode-exclusivity check (`main.rs` lines
45–48) runs before the prover client is constructed; then exactly one of
the two branches runs. -/
def runMain (env : Env) (args : Args) : Outcome × List Event :=
  if args.execute = args.prove then (Outcome.configError, [])
  else if args.execute then runExecuteBranch env args
  else runProveBranch env args

/-- An inert environment: every external call fails. -/
def envFailAll : Env :=
  { executeRun := fun _ => none
    proveRun := fun _ => none
    readKeyFile := none
    pairingVerify := fun _ _ _ _ => false }

/-- An environment whose execute oracle returns the given output bytes
and cycle count. -/
def envExecWith (out : List Nat) (cycles : Nat) : Env :=
  { executeRun := fun _ => some (out, cycles)
    proveRun := fun _ => none
    readKeyFile := none
    pairingVerify := fun _ _ _ _ => false }

/-- An environment whose proving oracle returns the given proof, with the
given key-file contents and a pairing oracle with the given verdict. -/
def envProveWith (p : SP1Proof) (vk : Option (List Nat)) (accept : Bool) : Env :=
  { executeRun := fun _ => none
    proveRun := fun _ => some p
    readKeyFile := vk
    pairingVerify := fun _ _ _ _ => accept }

/-- A Groth16 proof as generated, attesting to public inputs (5, 7). -/
def proofOriginal : SP1Proof :=
  SP1Proof.groth16 { encoded_proof := "00ff", public_inputs := ["5", "7"] }

/-- The same proof body with its self-reported public-input strings
replaced by (11, 13). -/
def proofTampered : SP1Proof :=
  SP1Proof.groth16 { encoded_proof := "00ff", public_inputs := ["11", "13"] }

/-- A Groth16 proof whose hex payload `"zz"` is not decodable. -/
def proofBadHex : SP1Proof :=
  SP1Proof.groth16 { encoded_proof := "zz", public_inputs := ["1", "2"] }

/- ------------------------------------------------------------------ -/
/- Helper lemmas                                                      -/
/- ------------------------------------------------------------------ -/

theorem natToBE_length (w v : Nat) : (natToBE w v).length = w := by
  induction w generalizing v with
  | zero => rfl
  | succ w ih => simp [natToBE, ih]

theorem fromBE_append_singleton (xs : List Nat) (d : Nat) :
    fromBE (xs ++ [d]) = fromBE xs * 256 + d := by
  simp [fromBE, List.foldl_append]

theorem fromBE_natToBE (w v : Nat) (h : v < 256 ^ w) : fromBE (natToBE w v) = v := by
  induction w generalizing v with
  | zero =>
    have : v = 0 := by simpa using h
    simp [this, natToBE, fromBE]
  | succ w ih =>
    have hv : v / 256 < 256 ^ w := by
      apply Nat.div_lt_of_lt_mul
      calc v < 256 ^ (w + 1) := h
        _ = 256 * 256 ^ w := by ring
    rw [natToBE, fromBE_append_singleton, ih (v / 256) hv]
    omega

theorem take_append_of_length (l₁ l₂ : List Nat) (n : Nat) (h : l₁.length = n) :
    (l₁ ++ l₂).take n = l₁ := by
  subst h; simp

theorem drop_append_of_length (l₁ l₂ : List Nat) (n : Nat) (h : l₁.length = n) :
    (l₁ ++ l₂).drop n = l₂ := by
  subst h; simp

theorem runMain_execute_eq (env : Env) (args : Args)
    (he : args.execute = true) (hp : args.prove = false) :
    runMain env args = runExecuteBranch env args := by
  simp [runMain, he, hp]

theorem runMain_prove_eq (env : Env) (args : Args)
    (he : args.execute = false) (hp : args.prove = true) :
    runMain env args = runProveBranch env args := by
  simp [runMain, he, hp]

/- ------------------------------------------------------------------ -/
/- Claims                                                             -/
/- ------------------------------------------------------------------ -/

/-- C2: whenever the execute flag and the prove flag are equal (both set
or both unset), the driver reports the configuration error and exits with
code 1, and its external-call trace is empty: no prover-client
construction, execution, setup, or proving is attempted. -/
theorem C2_mode_exclusivity (env : Env) (args : Args)
    (h : args.execute = args.prove) :
    runMain env args = (Outcome.configError, []) ∧
      exitCode (runMain env args).1 = 1 := by
  simp [runMain, h, exitCode]

theorem C2_mode_exclusivity_witness :
    (parseArgs true true none).execute = (parseArgs true true none).prove ∧
    (runMain envFailAll (parseArgs true true none) = (Outcome.configError, []) ∧
      exitCode (runMain envFailAll (parseArgs true true none)).1 = 1) :=
  ⟨rfl, C2_mode_exclusivity envFailAll (parseArgs true true none) rfl⟩

/-- C7: for every valid `PublicValuesStruct` value (fields within the
declared widths `u32`/`u64`/`u64`), decoding the ABI encoding returns
exactly the original value. -/
theorem C7_abi_roundtrip (v : PublicValuesStruct)
    (hn : v.n < 2 ^ 32) (ha : v.a < 2 ^ 64) (hb : v.b < 2 ^ 64) :
    abiDecodePublicValues (abiEncodePublicValues v) = some v := by
  obtain ⟨n, a, b⟩ := v
  simp only at hn ha hb
  have lenN : (natToBE 32 n).length = 32 := natToBE_length 32 n
  have lenA : (natToBE 32 a).length = 32 := natToBE_length 32 a
  have lenB : (natToBE 32 b).length = 32 := natToBE_length 32 b
  have hEnc : abiEncodePublicValues ⟨n, a, b⟩ =
      natToBE 32 n ++ (natToBE 32 a ++ natToBE 32 b) := by
    simp [abiEncodePublicValues]
  have htake : (abiEncodePublicValues ⟨n, a, b⟩).take 32 = natToBE 32 n := by
    rw [hEnc]; exact take_append_of_length _ _ _ lenN
  have hdrop : (abiEncodePublicValues ⟨n, a, b⟩).drop 32 =
      natToBE 32 a ++ natToBE 32 b := by
    rw [hEnc]; exact drop_append_of_length _ _ _ lenN
  have htakeA : ((abiEncodePublicValues ⟨n, a, b⟩).drop 32).take 32 = natToBE 32 a := by
    rw [hdrop]; exact take_append_of_length _ _ _ lenA
  have hdrop64 : (abiEncodePublicValues ⟨n, a, b⟩).drop 64 = natToBE 32 b := by
    have h2 : abiEncodePublicValues ⟨n, a, b⟩ =
        (natToBE 32 n ++ natToBE 32 a) ++ natToBE 32 b := by
      rw [hEnc, List.append_assoc]
    rw [h2]
    exact drop_append_of_length _ _ _ (by rw [List.length_append, lenN, lenA])
  have hlen : (abiEncodePublicValues ⟨n, a, b⟩).length = 96 := by
    rw [hEnc]; simp [lenN, lenA, lenB]
  have hn2 : fromBE (natToBE 32 n) = n :=
    fromBE_natToBE 32 n (lt_of_lt_of_le hn (by norm_num))
  have ha2 : fromBE (natToBE 32 a) = a :=
    fromBE_natToBE 32 a (lt_of_lt_of_le ha (by norm_num))
  have hb2 : fromBE (natToBE 32 b) = b :=
    fromBE_natToBE 32 b (lt_of_lt_of_le hb (by norm_num))
  unfold abiDecodePublicValues
  rw [hlen, htake, htakeA, hdrop64, hn2, ha2, hb2]
  norm_num at hn ha hb
  simp [hn, ha, hb]

theorem C7_abi_roundtrip_witness :
    (20 : Nat) < 2 ^ 32 ∧ (6765 : Nat) < 2 ^ 64 ∧ (10946 : Nat) < 2 ^ 64 ∧
    abiDecodePublicValues (abiEncodePublicValues ⟨20, 6765, 10946⟩) =
      some ⟨20, 6765, 10946⟩ :=
  ⟨by norm_num, by norm_num, by norm_num,
    C7_abi_roundtrip ⟨20, 6765, 10946⟩ (by norm_num) (by norm_num) (by norm_num)⟩

/-- C8: when `--n` is absent, clap's declared default makes `n = 20`, and
in either mode that 20 is exactly the value handed to the engine call
(the guest-input write feeding execute respectively prove). -/
theorem C8_default_n (env : Env) (e p : Bool) (h : e ≠ p) :
    (parseArgs e p none).n = 20 ∧
    (e = true → Event.execCall 20 ∈ (runMain env (parseArgs e p none)).2) ∧
    (p = true → Event.proveCall 20 ∈ (runMain env (parseArgs e p none)).2) := by
  refine ⟨rfl, ?_, ?_⟩
  · intro he
    have hp : p = false := by cases p <;> simp_all
    subst he hp
    rw [runMain_execute_eq env _ rfl rfl]
    unfold runExecuteBranch
    repeat' split
    all_goals simp [parseArgs]
  · intro hp
    have he : e = false := by cases e <;> simp_all
    subst he hp
    rw [runMain_prove_eq env _ rfl rfl]
    unfold runProveBranch
    repeat' split
    all_goals simp [parseArgs]

theorem C8_default_n_witness :
    (true ≠ false) ∧
    ((parseArgs true false none).n = 20 ∧
      (true = true → Event.execCall 20 ∈ (runMain envFailAll (parseArgs true false none)).2) ∧
      (false = true → Event.proveCall 20 ∈ (runMain envFailAll (parseArgs true false none)).2)) :=
  ⟨by decide, C8_default_n envFailAll true false (by decide)⟩

/-- C3: in execute mode, whenever the engine's output bytes decode to a
`PublicValuesStruct`, the decoded pair `(a, b)` is compared with the
reference `fibonacci` of the decoded `n`: on agreement the run completes
with exactly those values, and on any mismatch the run panics at one of
the two assertions and never completes successfully. -/
theorem C3_execute_cross_check (env : Env) (args : Args)
    (he : args.execute = true) (hp : args.prove = false)
    (out : List Nat) (cycles : Nat)
    (hrun : env.executeRun args.n = some (out, cycles))
    (v : PublicValuesStruct) (hdec : abiDecodePublicValues out = some v) :
    ((v.a, v.b) = fibonacci v.n →
      (runMain env args).1 = Outcome.doneExecute v.n v.a v.b cycles) ∧
    ((v.a, v.b) ≠ fibonacci v.n →
      ((runMain env args).1 = Outcome.panicked PanicSite.assertA ∨
       (runMain env args).1 = Outcome.panicked PanicSite.assertB) ∧
      ∀ n a b c, (runMain env args).1 ≠ Outcome.doneExecute n a b c) := by
  rw [runMain_execute_eq env args he hp]
  unfold runExecuteBranch
  simp only [hrun, hdec]
  constructor
  · intro heq
    have h1 : v.a = (fibonacci v.n).1 := by rw [← heq]
    have h2 : v.b = (fibonacci v.n).2 := by rw [← heq]
    simp [h1, h2]
  · intro hne
    by_cases h1 : v.a = (fibonacci v.n).1
    · have h2 : v.b ≠ (fibonacci v.n).2 := by
        intro h2
        exact hne (by rw [h1, h2])
      simp [h1, h2]
    · simp [h1]

theorem C3_execute_cross_check_witness :
    (envExecWith (abiEncodePublicValues ⟨0, 0, 1⟩) 42).executeRun
        (parseArgs true false none).n = some (abiEncodePublicValues ⟨0, 0, 1⟩, 42) ∧
    abiDecodePublicValues (abiEncodePublicValues ⟨0, 0, 1⟩) = some ⟨0, 0, 1⟩ ∧
    ((((0 : Nat), (1 : Nat)) = fibonacci 0 →
      (runMain (envExecWith (abiEncodePublicValues ⟨0, 0, 1⟩) 42)
        (parseArgs true false none)).1 = Outcome.doneExecute 0 0 1 42) ∧
     (((0 : Nat), (1 : Nat)) ≠ fibonacci 0 →
      ((runMain (envExecWith (abiEncodePublicValues ⟨0, 0, 1⟩) 42)
         (parseArgs true false none)).1 = Outcome.panicked PanicSite.assertA ∨
       (runMain (envExecWith (abiEncodePublicValues ⟨0, 0, 1⟩) 42)
         (parseArgs true false none)).1 = Outcome.panicked PanicSite.assertB) ∧
      ∀ n a b c, (runMain (envExecWith (abiEncodePublicValues ⟨0, 0, 1⟩) 42)
        (parseArgs true false none)).1 ≠ Outcome.doneExecute n a b c)) :=
  ⟨rfl, by decide,
    C3_execute_cross_check (envExecWith (abiEncodePublicValues ⟨0, 0, 1⟩) 42)
      (parseArgs true false none) rfl rfl (abiEncodePublicValues ⟨0, 0, 1⟩) 42 rfl
      ⟨0, 0, 1⟩ (by decide)⟩

/-- C9: after the mode check, exactly one pipeline runs: execute mode
never records a setup, prove, key-file read, or pairing call, and prove
mode never records an execution run or the reference cross-check. -/
theorem C9_frame_exclusive (env : Env) (args : Args)
    (h : args.execute ≠ args.prove) :
    (args.execute = true →
      Event.setupCall ∉ (runMain env args).2 ∧
      (∀ m, Event.proveCall m ∉ (runMain env args).2) ∧
      Event.readKey ∉ (runMain env args).2 ∧
      Event.pairingCall ∉ (runMain env args).2) ∧
    (args.prove = true →
      (∀ m, Event.execCall m ∉ (runMain env args).2) ∧
      Event.crossCheck ∉ (runMain env args).2) := by
  constructor
  · intro he
    have hp : args.prove = false := by
      cases hq : args.prove <;> simp_all
    rw [runMain_execute_eq env args he hp]
    unfold runExecuteBranch
    repeat' split
    all_goals simp
  · intro hp
    have he : args.execute = false := by
      cases hq : args.execute <;> simp_all
    rw [runMain_prove_eq env args he hp]
    unfold runProveBranch
    repeat' split
    all_goals simp

theorem C9_frame_exclusive_witness :
    ((parseArgs true false none).execute ≠ (parseArgs true false none).prove) ∧
    (((parseArgs true false none).execute = true →
      Event.setupCall ∉ (runMain envFailAll (parseArgs true false none)).2 ∧
      (∀ m, Event.proveCall m ∉ (runMain envFailAll (parseArgs true false none)).2) ∧
      Event.readKey ∉ (runMain envFailAll (parseArgs true false none)).2 ∧
      Event.pairingCall ∉ (runMain envFailAll (parseArgs true false none)).2) ∧
     ((parseArgs true false none).prove = true →
      (∀ m, Event.execCall m ∉ (runMain envFailAll (parseArgs true false none)).2) ∧
      Event.crossCheck ∉ (runMain envFailAll (parseArgs true false none)).2)) :=
  ⟨by decide, C9_frame_exclusive envFailAll (parseArgs true false none) (by decide)⟩

/-- C4 counterexample: for a Groth16 proof whose payload `"zz"` is not
valid hex, the driver does not yield a typed `MalformedProof` error — it
crashes, panicking at `hex::decode(...).unwrap()`, refuting "never a
crash (panic/abort)". -/
theorem C4_counterexample_hex_panic :
    (runMain (envProveWith proofBadHex (some [0]) true) (parseArgs false true none)).1 =
      Outcome.panicked PanicSite.hexDecode := by decide

/-- C4 amended: for every proof whose hex-encoded payload cannot be
decoded, the run panics at the `hex::decode(...).unwrap()` (a crash; no
typed `MalformedProof` error exists in the code) and never reports a
successful verification. -/
theorem C4_hex_failure_panics (env : Env) (args : Args)
    (he : args.execute = false) (hp : args.prove = true)
    (g : Groth16Proof) (hpr : env.proveRun args.n = some (SP1Proof.groth16 g))
    (vk : List Nat) (hvk : env.readKeyFile = some vk)
    (hhex : hexDecodeStr g.encoded_proof = none) :
    (runMain env args).1 = Outcome.panicked PanicSite.hexDecode ∧
    (runMain env args).1 ≠ Outcome.doneProve := by
  rw [runMain_prove_eq env args he hp]
  unfold runProveBranch
  simp [hpr, hvk, hhex]

theorem C4_hex_failure_panics_witness :
    (envProveWith proofBadHex (some [0]) true).proveRun (parseArgs false true none).n =
      some (SP1Proof.groth16 { encoded_proof := "zz", public_inputs := ["1", "2"] }) ∧
    (envProveWith proofBadHex (some [0]) true).readKeyFile = some [0] ∧
    hexDecodeStr "zz" = none ∧
    ((runMain (envProveWith proofBadHex (some [0]) true) (parseArgs false true none)).1 =
       Outcome.panicked PanicSite.hexDecode ∧
     (runMain (envProveWith proofBadHex (some [0]) true) (parseArgs false true none)).1 ≠
       Outcome.doneProve) :=
  ⟨rfl, rfl, by decide,
    C4_hex_failure_panics (envProveWith proofBadHex (some [0]) true)
      (parseArgs false true none) rfl rfl
      { encoded_proof := "zz", public_inputs := ["1", "2"] } rfl [0] rfl (by decide)⟩

/-- C5 counterexample: for a proof whose variant is not Groth16 (here the
Plonk variant), the driver does not yield a typed `UnsupportedSystem`
error — it crashes, panicking at `panic!("wtf?")`. -/
theorem C5_counterexample_plonk_panics :
    (runMain (envProveWith SP1Proof.plonk (some [0]) true) (parseArgs false true none)).1 =
      Outcome.panicked PanicSite.notGroth16 := by decide

/-- C5 amended: for every proof whose variant is not the Groth16 variant,
the run panics at `panic!("wtf?")` (a defined panic, not an
undefined-behavior fallthrough, but also not a typed `UnsupportedSystem`
error) and never reports a successful verification. -/
theorem C5_non_groth16_panics (env : Env) (args : Args)
    (he : args.execute = false) (hp : args.prove = true)
    (p : SP1Proof) (hpr : env.proveRun args.n = some p)
    (hng : ∀ g, p ≠ SP1Proof.groth16 g)
    (vk : List Nat) (hvk : env.readKeyFile = some vk) :
    (runMain env args).1 = Outcome.panicked PanicSite.notGroth16 ∧
    (runMain env args).1 ≠ Outcome.doneProve := by
  rw [runMain_prove_eq env args he hp]
  unfold runProveBranch
  simp only [hpr, hvk]
  cases p with
  | groth16 g => exact absurd rfl (hng g)
  | core => simp
  | compressed => simp
  | plonk => simp

theorem C5_non_groth16_panics_witness :
    (envProveWith SP1Proof.plonk (some [0]) true).proveRun (parseArgs false true none).n =
      some SP1Proof.plonk ∧
    (∀ g, SP1Proof.plonk ≠ SP1Proof.groth16 g) ∧
    (envProveWith SP1Proof.plonk (some [0]) true).readKeyFile = some [0] ∧
    ((runMain (envProveWith SP1Proof.plonk (some [0]) true) (parseArgs false true none)).1 =
       Outcome.panicked PanicSite.notGroth16 ∧
     (runMain (envProveWith SP1Proof.plonk (some [0]) true) (parseArgs false true none)).1 ≠
       Outcome.doneProve) :=
  ⟨rfl, fun _ h => SP1Proof.noConfusion h, rfl,
    C5_non_groth16_panics (envProveWith SP1Proof.plonk (some [0]) true)
      (parseArgs false true none) rfl rfl SP1Proof.plonk rfl
      (fun _ h => SP1Proof.noConfusion h) [0] rfl⟩

/-- C6 counterexample: when the verification-key file read fails (missing
path), the driver does not surface a typed `VerificationError` — it
crashes, panicking at `std::fs::read(...).unwrap()`. -/
theorem C6_counterexample_missing_key_panics :
    (runMain (envProveWith proofOriginal none true) (parseArgs false true none)).1 =
      Outcome.panicked PanicSite.fsRead := by decide

/-- C6 amended: for every failed read of the verification-key file, the
run panics at the `std::fs::read(...).unwrap()` (a crash; no typed
`VerificationError` is surfaced) and never reports a successful
verification. (Key bytes that do load are passed unvalidated to the
pairing oracle.) -/
theorem C6_key_read_failure_panics (env : Env) (args : Args)
    (he : args.execute = false) (hp : args.prove = true)
    (p : SP1Proof) (hpr : env.proveRun args.n = some p)
    (hvk : env.readKeyFile = none) :
    (runMain env args).1 = Outcome.panicked PanicSite.fsRead ∧
    (runMain env args).1 ≠ Outcome.doneProve := by
  rw [runMain_prove_eq env args he hp]
  unfold runProveBranch
  simp [hpr, hvk]

theorem C6_key_read_failure_panics_witness :
    (envProveWith proofOriginal none true).proveRun (parseArgs false true none).n =
      some proofOriginal ∧
    (envProveWith proofOriginal none true).readKeyFile = none ∧
    ((runMain (envProveWith proofOriginal none true) (parseArgs false true none)).1 =
       Outcome.panicked PanicSite.fsRead ∧
     (runMain (envProveWith proofOriginal none true) (parseArgs false true none)).1 ≠
       Outcome.doneProve) :=
  ⟨rfl, rfl,
    C6_key_read_failure_panics (envProveWith proofOriginal none true)
      (parseArgs false true none) rfl rfl proofOriginal rfl rfl⟩

/-- C1: code bug, evaluated at the failing input. The driver feeds the
pairing check the proof's own self-reported public-input strings and
performs no comparison against expected inputs derived independently from
the execution report / decoded `PublicValuesStruct` (the SDK-level
`client.verify` call is commented out). Under one and the same pairing
oracle and key material, the run reports verification success both for
the original proof attesting to inputs (5, 7) and for the same proof body
whose self-reported inputs were tampered to (11, 13) — so success never
depended on the inputs matching anything expected. -/
theorem C1_tampered_inputs_still_succeed :
    (runMain (envProveWith proofOriginal (some [0]) true) (parseArgs false true none)).1 =
      Outcome.doneProve ∧
    (runMain (envProveWith proofTampered (some [0]) true) (parseArgs false true none)).1 =
      Outcome.doneProve := by
  constructor <;> decide

/-- C10: in prove mode, the success report (`doneProve`, the
"Successfully verified proof!" print) happens only after the pairing
verification has been called and returned `true` for the generated
proof's data; whenever the verifier returns `false` at that point, the
run ends in the `assert!(res)` panic and never reports success. -/
theorem C10_success_only_after_pairing (env : Env) (args : Args)
    (he : args.execute = false) (hp : args.prove = true) :
    ((runMain env args).1 = Outcome.doneProve →
      Event.pairingCall ∈ (runMain env args).2 ∧
      ∃ g raw vk h0 h1,
        env.proveRun args.n = some (SP1Proof.groth16 g) ∧
        env.readKeyFile = some vk ∧
        hexDecodeStr g.encoded_proof = some raw ∧
        decParseAt (g.public_inputs.get? 0) = some h0 ∧
        decParseAt (g.public_inputs.get? 1) = some h1 ∧
        env.pairingVerify raw vk [h0 % rBN254, h1 % rBN254] ProvingSystem.groth16 = true) ∧
    (∀ g raw vk h0 h1,
      env.proveRun args.n = some (SP1Proof.groth16 g) →
      env.readKeyFile = some vk →
      hexDecodeStr g.encoded_proof = some raw →
      decParseAt (g.public_inputs.get? 0) = some h0 →
      decParseAt (g.public_inputs.get? 1) = some h1 →
      env.pairingVerify raw vk [h0 % rBN254, h1 % rBN254] ProvingSystem.groth16 = false →
      (runMain env args).1 = Outcome.panicked PanicSite.assertRes) := by
  rw [runMain_prove_eq env args he hp]
  unfold runProveBranch
  constructor
  · intro hdone
    rcases hpr : env.proveRun args.n with _ | proof <;> simp only [hpr] at hdone ⊢
    · simp at hdone
    rcases hvk : env.readKeyFile with _ | vk <;> simp only [hvk] at hdone ⊢
    · simp at hdone
    cases proof with
    | groth16 g =>
      simp only at hdone ⊢
      rcases hraw : hexDecodeStr g.encoded_proof with _ | raw <;>
        simp only [hraw] at hdone ⊢
      · simp at hdone
      rcases hp0 : decParseAt (g.public_inputs.get? 0) with _ | h0 <;>
        simp only [hp0] at hdone ⊢
      · simp at hdone
      rcases hp1 : decParseAt (g.public_inputs.get? 1) with _ | h1 <;>
        simp only [hp1] at hdone ⊢
      · simp at hdone
      cases hres : env.pairingVerify raw vk [h0 % rBN254, h1 % rBN254]
          ProvingSystem.groth16 <;> simp only [hres] at hdone ⊢
      · simp at hdone
      · exact ⟨by simp, g, raw, vk, h0, h1, rfl, rfl, hraw, hp0, hp1, hres⟩
    | core => simp at hdone
    | compressed => simp at hdone
    | plonk => simp at hdone
  · intro g raw vk h0 h1 hpr hvk hraw hp0 hp1 hres
    simp only [List.get?_eq_getElem?] at hp0 hp1
    simp [hpr, hvk, hraw, hp0, hp1, hres]

theorem C10_success_only_after_pairing_witness :
    (parseArgs false true none).execute = false ∧
    (parseArgs false true none).prove = true ∧
    (((runMain (envProveWith proofOriginal (some [0]) true) (parseArgs false true none)).1 =
        Outcome.doneProve →
      Event.pairingCall ∈
        (runMain (envProveWith proofOriginal (some [0]) true) (parseArgs false true none)).2 ∧
      ∃ g raw vk h0 h1,
        (envProveWith proofOriginal (some [0]) true).proveRun (parseArgs false true none).n =
          some (SP1Proof.groth16 g) ∧
        (envProveWith proofOriginal (some [0]) true).readKeyFile = some vk ∧
        hexDecodeStr g.encoded_proof = some raw ∧
        decParseAt (g.public_inputs.get? 0) = some h0 ∧
        decParseAt (g.public_inputs.get? 1) = some h1 ∧
        (envProveWith proofOriginal (some [0]) true).pairingVerify raw vk
          [h0 % rBN254, h1 % rBN254] ProvingSystem.groth16 = true) ∧
     (∀ g raw vk h0 h1,
      (envProveWith proofOriginal (some [0]) true).proveRun (parseArgs false true none).n =
        some (SP1Proof.groth16 g) →
      (envProveWith proofOriginal (some [0]) true).readKeyFile = some vk →
      hexDecodeStr g.encoded_proof = some raw →
      decParseAt (g.public_inputs.get? 0) = some h0 →
      decParseAt (g.public_inputs.get? 1) = some h1 →
      (envProveWith proofOriginal (some [0]) true).pairingVerify raw vk
        [h0 % rBN254, h1 % rBN254] ProvingSystem.groth16 = false →
      (runMain (envProveWith proofOriginal (some [0]) true) (parseArgs false true none)).1 =
        Outcome.panicked PanicSite.assertRes)) :=
  ⟨rfl, rfl,
    C10_success_only_after_pairing (envProveWith proofOriginal (some [0]) true)
      (parseArgs false true none) rfl rfl⟩

end SP1Driver
